import Mathlib

/-!
Shallow embedding of the `kafka_threadpool` crate's dispatch core.

The shared work queue (`Arc<Mutex<Vec<KafkaPublishMessage>>>`) is modelled
as a `List KafkaPublishMessage`; each queue operation takes the queue state
and returns the new queue state together with its result.  The mutex lock
is modelled as always acquired (lock poisoning is a concurrency failure
outside the scope of this sequential embedding); the critical sections in
the source are straight-line in-memory list edits, so the sequential model
captures their full effect.
-/

namespace KafkaThreadpool

/-- Embeds `KafkaPublishMessageType` from `src/api/kafka_publish_message_type.rs`. -/
inductive KafkaPublishMessageType where
  | Data
  | Shutdown
  | LogBrokerDetails
  | LogBrokerTopicDetails
  | Sensitive
deriving DecidableEq

/-- Embeds `KafkaPublishMessage` from `src/api/kafka_publish_message.rs`.
The Rust `headers : Option<HashMap<String, String>>` is modelled as an
optional association list (insertion order irrelevant for every claim). -/
structure KafkaPublishMessage where
  msg_type : KafkaPublishMessageType
  topic : String
  key : String
  headers : Option (List (String × String))
  payload : String
deriving DecidableEq

/-- Embeds `build_kafka_publish_message` from
`src/api/build_kafka_publish_message.rs` (delegates to
`KafkaPublishMessage::new_from`). -/
def build_kafka_publish_message (msg_type : KafkaPublishMessageType)
    (topic key : String) (headers : Option (List (String × String)))
    (payload : String) : KafkaPublishMessage :=
  ⟨msg_type, topic, key, headers, payload⟩

/-- Embeds `add_messages_to_locked_work_vec` from
`src/api/add_messages_to_locked_work_vec.rs`.  Returns the new queue state
paired with the Rust function's `Result<usize, String>`: error
`"no msgs to add"` when `msgs` is empty (the queue untouched — the check
precedes the lock), otherwise the messages are appended in order while
locked and the new total length returned. -/
def add_messages_to_locked_work_vec (q msgs : List KafkaPublishMessage) :
    List KafkaPublishMessage × Except String Nat :=
  if msgs.length = 0 then
    (q, .error "no msgs to add")
  else
    (q ++ msgs, .ok (q ++ msgs).length)

/-- Embeds `drain_messages_from_locked_work_vec` from
`src/api/drain_messages_from_locked_work_vec.rs`.  Returns
`(drained, remaining)`: when more than 10 messages are queued it drains
`0..10`, otherwise it drains the whole queue (`0..num_msgs`). -/
def drain_messages_from_locked_work_vec (q : List KafkaPublishMessage) :
    List KafkaPublishMessage × List KafkaPublishMessage :=
  let num_msgs := q.length
  if num_msgs > 10 then
    (q.take 10, q.drop 10)
  else
    (q, [])

/-- Embeds `KafkaClientConfig` from `src/config/kafka_client_config.rs`
(the static, read-only configuration snapshot; environment parsing is
external and out of scope). -/
structure KafkaClientConfig where
  label : String
  is_enabled : Bool
  broker_list : List String
  publish_topics : List (String × String)
  num_threads : Nat
  retry_sleep_sec : Nat
  idle_sleep_sec : Nat
  tls_key : String
  tls_cert : String
  tls_ca : String
deriving DecidableEq

/-- Embeds the `KafkaPublisher` facade from `src/kafka_publisher.rs`:
the configuration plus the shared lockable work vec `publish_msgs`. -/
structure KafkaPublisher where
  config : KafkaClientConfig
  publish_msgs : List KafkaPublishMessage
deriving DecidableEq

/-- Embeds `KafkaPublisher::add_data_msg` (src/kafka_publisher.rs lines
98-118): when enabled, builds a `Data` message and enqueues it via
`add_messages_to_locked_work_vec`; when disabled, returns `Ok(0)` without
touching the queue. -/
def KafkaPublisher.add_data_msg (kp : KafkaPublisher) (topic key : String)
    (headers : Option (List (String × String))) (payload : String) :
    KafkaPublisher × Except String Nat :=
  if kp.config.is_enabled then
    let msg := build_kafka_publish_message .Data topic key headers payload
    let r := add_messages_to_locked_work_vec kp.publish_msgs [msg]
    ({ kp with publish_msgs := r.1 }, r.2)
  else
    (kp, .ok 0)

/-- Embeds `KafkaPublisher::add_msg` (src/kafka_publisher.rs lines
141-151). -/
def KafkaPublisher.add_msg (kp : KafkaPublisher) (msg : KafkaPublishMessage) :
    KafkaPublisher × Except String Nat :=
  if kp.config.is_enabled then
    let r := add_messages_to_locked_work_vec kp.publish_msgs [msg]
    ({ kp with publish_msgs := r.1 }, r.2)
  else
    (kp, .ok 0)

/-- Embeds `KafkaPublisher::add_msgs` (src/kafka_publisher.rs lines
174-183). -/
def KafkaPublisher.add_msgs (kp : KafkaPublisher)
    (msgs : List KafkaPublishMessage) : KafkaPublisher × Except String Nat :=
  if kp.config.is_enabled then
    let r := add_messages_to_locked_work_vec kp.publish_msgs msgs
    ({ kp with publish_msgs := r.1 }, r.2)
  else
    (kp, .ok 0)

/-- Embeds `KafkaPublisher::drain_msgs` (src/kafka_publisher.rs lines
194-200): when enabled, delegates to `drain_messages_from_locked_work_vec`;
when disabled, returns the empty vec.  Result is
`(publisher with updated queue, drained messages)`. -/
def KafkaPublisher.drain_msgs (kp : KafkaPublisher) :
    KafkaPublisher × List KafkaPublishMessage :=
  if kp.config.is_enabled then
    let r := drain_messages_from_locked_work_vec kp.publish_msgs
    ({ kp with publish_msgs := r.2 }, r.1)
  else
    (kp, [])

/-- Embeds `KafkaPublisher::shutdown` (src/kafka_publisher.rs lines
218-239): when enabled, enqueues one `Shutdown` message built with empty
topic/key/payload and no headers, returning `Ok("shutdown started")` on
success of the enqueue; when disabled, returns `Ok("kafka not enabled")`. -/
def KafkaPublisher.shutdown (kp : KafkaPublisher) :
    KafkaPublisher × Except String String :=
  if kp.config.is_enabled then
    let shutdown_msg := build_kafka_publish_message .Shutdown "" "" none ""
    let r := add_messages_to_locked_work_vec kp.publish_msgs [shutdown_msg]
    match r.2 with
    | .ok _ => ({ kp with publish_msgs := r.1 }, .ok "shutdown started")
    | .error e => ({ kp with publish_msgs := r.1 }, .error e)
  else
    (kp, .ok "kafka not enabled")

/-! ## Worker batch-processing state machine

`thread_process_messages_handler` (src/thread_process_messages_handler.rs)
drains a local batch and processes it front-to-back in the inner
`while !work_vec.is_empty()` loop (lines 87-167).  The loop body is
embedded as a step function on an explicit worker state; the delivery
status a publish attempt would get from the external broker is a step
input. -/

/-- UTF-8 byte size of a prefix of a char list, as Rust measures string
slices: `take_utf8_bytes l n` is `some` of the chars making up the first
`n` bytes when byte offset `n` is a char boundary within bounds, `none`
otherwise. -/
def take_utf8_bytes : List Char → Nat → Option (List Char)
  | _, 0 => some []
  | [], _ + 1 => none
  | c :: cs, n + 1 =>
    if c.utf8Size ≤ n + 1 then
      match take_utf8_bytes cs (n + 1 - c.utf8Size) with
      | some l => some (c :: l)
      | none => none
    else none

/-- Total UTF-8 byte length of a string (Rust's `str::len`). -/
def utf8ByteLen (s : String) : Nat := (s.data.map Char.utf8Size).sum

/-- Models the Rust byte-slice expression `&s[..n]`: `some` of the sliced
string when in bounds on a char boundary, `none` when the expression
panics. -/
def rustStrSliceTo (s : String) (n : Nat) : Option String :=
  (take_utf8_bytes s.data n).map List.asString

/-- What the inner loop body does with the message popped from the front
of the local batch (the `if`/`else if`/`else` chain at
src/thread_process_messages_handler.rs lines 89-166). -/
inductive MsgDispatch where
  /-- `msg_type == Shutdown`: requeue a clone, break the batch loop. -/
  | requeueShutdown
  /-- `msg_type == Data`, `&msg.payload[..10]` in bounds: log the slice,
  convert headers, enter the publish retry loop. -/
  | publishData (payload_sub : String)
  /-- `msg_type == Data`, `&msg.payload[..10]` out of bounds: panic. -/
  | panicSliceOutOfBounds
  /-- `msg_type == LogBrokerDetails`: log "not supported yet", break. -/
  | notSupportedYetBreak
  /-- any other variant (incl. `Sensitive`, `LogBrokerTopicDetails`):
  log "unsupported KafkaPublishMessageType", break. -/
  | unsupportedBreak
deriving DecidableEq

/-- Embeds the per-message branch selection of the inner loop body
(src/thread_process_messages_handler.rs lines 89-166), including the
`let payload_sub = msg.payload[..10].to_string()` evaluated first in the
`Data` branch (line 114). -/
def dispatch_front_message (m : KafkaPublishMessage) : MsgDispatch :=
  if m.msg_type = .Shutdown then
    .requeueShutdown
  else if m.msg_type = .Data then
    match rustStrSliceTo m.payload 10 with
    | some s => .publishData s
    | none => .panicSliceOutOfBounds
  else if m.msg_type = .LogBrokerDetails then
    .notSupportedYetBreak
  else
    .unsupportedBreak

/-- Worker-local state for one pass over the inner batch loop:
the drained local `work_vec`, the shared queue, the `should_shutdown`
flag (line 76), and the message currently stuck in the publish retry
loop (lines 130-149), if any. -/
structure WorkerState where
  work_vec : List KafkaPublishMessage
  queue : List KafkaPublishMessage
  should_shutdown : Bool
  retrying : Option KafkaPublishMessage
deriving DecidableEq

/-- Control outcome of one step of the inner batch loop. -/
inductive BatchControl where
  /-- loop continues with the next message (or next retry attempt). -/
  | continueBatch
  /-- `break` out of the batch loop (or its guard became false). -/
  | breakBatch
  /-- the step panics (out-of-bounds byte slice). -/
  | panicNow
deriving DecidableEq

/-- One step of the inner batch loop
(src/thread_process_messages_handler.rs lines 87-167).  `delivery_status`
is the status the external broker returns for the publish attempt made in
this step, if one is made (`0` = success).  When a message is in the
retry loop, status `0` ends the retry and advances; any non-zero status
sleeps `retry_sleep` and retries the same message, with no attempt
bound.  Otherwise the front message is popped and dispatched: `Shutdown`
sets the flag, requeues one clone via `add_messages_to_locked_work_vec`
and breaks; `Data` (slice in bounds) makes a first publish attempt;
`LogBrokerDetails` and all unsupported kinds break, dropping the rest of
the local batch. -/
def batch_loop_step (delivery_status : Int) (s : WorkerState) :
    WorkerState × BatchControl :=
  match s.retrying with
  | some _ =>
    if delivery_status = 0 then
      ({ s with retrying := none }, .continueBatch)
    else
      (s, .continueBatch)
  | none =>
    match s.work_vec with
    | [] => (s, .breakBatch)
    | m :: rest =>
      match dispatch_front_message m with
      | .requeueShutdown =>
        let r := add_messages_to_locked_work_vec s.queue [m]
        ({ work_vec := rest, queue := r.1, should_shutdown := true,
           retrying := none }, .breakBatch)
      | .publishData _ =>
        if delivery_status = 0 then
          ({ s with work_vec := rest }, .continueBatch)
        else
          ({ s with work_vec := rest, retrying := some m }, .continueBatch)
      | .panicSliceOutOfBounds => (s, .panicNow)
      | .notSupportedYetBreak => ({ s with work_vec := rest }, .breakBatch)
      | .unsupportedBreak => ({ s with work_vec := rest }, .breakBatch)

/-- Worker phase after the batch loop. -/
inductive WorkerPhase where
  /-- loop back to draining the shared queue. -/
  | Draining
  /-- `break` out of the outer thread loop: the worker exits. -/
  | Terminated
deriving DecidableEq

/-- Embeds the code after the batch loop
(src/thread_process_messages_handler.rs lines 169-180): when
`should_shutdown` is set, the leftover local batch is only logged (an
error when non-empty) and the outer loop breaks — the worker terminates;
otherwise the local vec is cleared and draining resumes.  Returns the
phase and the local messages left unrecovered at that point. -/
def after_batch_loop (s : WorkerState) : WorkerPhase × List KafkaPublishMessage :=
  if s.should_shutdown then
    (.Terminated, s.work_vec)
  else
    (.Draining, [])

/-! ## Message string representations

`impl Debug for KafkaPublishMessage` and `impl Display for
KafkaPublishMessage` (src/api/kafka_publish_message.rs lines 100-152).
The derived `Debug` rendering of `msg_type` and of the optional header
map are modelled concretely (header-map iteration order is fixed to the
association-list order; no claim depends on it). -/

/-- Derived `Debug` rendering of `KafkaPublishMessageType`. -/
def fmtMsgType : KafkaPublishMessageType → String
  | .Data => "Data"
  | .Shutdown => "Shutdown"
  | .LogBrokerDetails => "LogBrokerDetails"
  | .LogBrokerTopicDetails => "LogBrokerTopicDetails"
  | .Sensitive => "Sensitive"

/-- `Debug` rendering of one header key/value pair. -/
def fmtHeaderPair (p : String × String) : String :=
  "\"" ++ p.1 ++ "\": \"" ++ p.2 ++ "\""

/-- `Debug` rendering of `Option<HashMap<String, String>>`. -/
def fmtHeaders : Option (List (String × String)) → String
  | none => "None"
  | some l =>
    "Some(\x7b" ++ String.intercalate ", " (l.map fmtHeaderPair) ++ "\x7d)"

/-- Embeds `impl Debug for KafkaPublishMessage`
(src/api/kafka_publish_message.rs lines 100-125): non-`Sensitive`
messages render type, topic, key, headers and payload; `Sensitive`
messages render everything but the payload. -/
def KafkaPublishMessage.debugFmt (m : KafkaPublishMessage) : String :=
  if m.msg_type ≠ .Sensitive then
    "DEBUG KafkaPublishMessage type=" ++ fmtMsgType m.msg_type
      ++ " topic=" ++ m.topic ++ " key=" ++ m.key
      ++ " headers=" ++ fmtHeaders m.headers ++ " payload=" ++ m.payload
  else
    "DEBUG SENSITIVE KafkaPublishMessage type=" ++ fmtMsgType m.msg_type
      ++ " topic=" ++ m.topic ++ " key=" ++ m.key
      ++ " headers=" ++ fmtHeaders m.headers

/-- Embeds `impl Display for KafkaPublishMessage`
(src/api/kafka_publish_message.rs lines 127-152). -/
def KafkaPublishMessage.displayFmt (m : KafkaPublishMessage) : String :=
  if m.msg_type ≠ .Sensitive then
    "KafkaPublishMessage type=" ++ fmtMsgType m.msg_type
      ++ " topic=" ++ m.topic ++ " key=" ++ m.key
      ++ " headers=" ++ fmtHeaders m.headers ++ " payload=" ++ m.payload
  else
    "SENSITIVE KafkaPublishMessage type=" ++ fmtMsgType m.msg_type
      ++ " topic=" ++ m.topic ++ " key=" ++ m.key
      ++ " headers=" ++ fmtHeaders m.headers

/-! ## Metadata query

`get_kafka_metadata` (src/metadata/get_kafka_metadata.rs lines 26-98).
The broker-provided metadata is an input: a list of topics, each with
partitions whose watermark-fetch outcome is `some (low, high)` on
success and `none` on failure.  Fields that are only echoed into log
lines (broker ids, leaders, replicas, ISR, errors) are elided; the
embedding covers the watermark accumulation and the per-topic message
count report (lines 57-97). -/

/-- One partition of a topic, with the outcome the external
`fetch_watermarks` call would produce for it. -/
structure PartitionMeta where
  id : Int
  watermarks : Option (Int × Int)
deriving DecidableEq

/-- One topic returned by `fetch_metadata`. -/
structure TopicMeta where
  name : String
  partitions : List PartitionMeta
deriving DecidableEq

/-- Embeds `consumer.fetch_watermarks(...).unwrap_or((-1, -1))`
(src/metadata/get_kafka_metadata.rs lines 73-79). -/
def fetch_watermarks_or_default (p : PartitionMeta) : Int × Int :=
  p.watermarks.getD (-1, -1)

/-- Sum of `high - low` over one topic's partitions, with the
`(-1, -1)` failure default applied per partition. -/
def topic_watermark_sum (t : TopicMeta) : Int :=
  (t.partitions.map (fun p =>
    (fetch_watermarks_or_default p).2 - (fetch_watermarks_or_default p).1)).sum

/-- The inner topic loop of `get_kafka_metadata` with `fetch_offsets`
true: `message_count` starts at `acc`, each topic adds its partitions'
`high - low` differences, and the value of `message_count` at the
`"topic={} - message offset={message_count}"` log line (line 93) is
recorded per topic.  `message_count` is declared once before the loop
(line 57) and never reset between topics. -/
def report_counts_from (acc : Int) : List TopicMeta → List (String × Int)
  | [] => []
  | t :: ts =>
    let acc' := acc + topic_watermark_sum t
    (t.name, acc') :: report_counts_from acc' ts

/-- Embeds the per-topic message-count reporting of `get_kafka_metadata`
(src/metadata/get_kafka_metadata.rs lines 57-97): the list of
`(topic name, message_count as logged for that topic)` pairs.  With
`fetch_offsets = false` no counts are fetched or reported. -/
def get_kafka_metadata_counts (fetch_offsets : Bool)
    (topics : List TopicMeta) : List (String × Int) :=
  if fetch_offsets then report_counts_from 0 topics else []

/-! ## Concrete fixtures used by witnesses and counterexamples -/

/-- A `Data` message with a 14-byte payload. -/
def exDataMsg : KafkaPublishMessage :=
  ⟨.Data, "testing", "key-0", none, "test message 0"⟩

/-- The poison-pill message `shutdown()` builds. -/
def exShutdownMsg : KafkaPublishMessage :=
  build_kafka_publish_message .Shutdown "" "" none ""

/-- A `Sensitive` message with a payload long enough to publish. -/
def exSensitiveMsg : KafkaPublishMessage :=
  ⟨.Sensitive, "testing", "key-s", none, "secret payload data"⟩

/-- An enabled configuration. -/
def cfgOn : KafkaClientConfig :=
  ⟨"ktp", true, ["host0:9092"], [("testing", "testing")], 3, 1000, 500,
   "", "", ""⟩

/-- A disabled configuration. -/
def cfgOff : KafkaClientConfig :=
  ⟨"ktp", false, [], [], 0, 0, 0, "", "", ""⟩

/-- A queue of 15 messages with pairwise-distinct keys. -/
def q15ex : List KafkaPublishMessage :=
  (List.range 15).map (fun i =>
    ⟨.Data, "testing", toString i, none, "test message"⟩)

/-- An enabled publisher holding 11 messages. -/
def kp11ex : KafkaPublisher :=
  ⟨cfgOn, (List.range 11).map (fun i =>
    ⟨.Data, "testing", toString i, none, "test message"⟩)⟩

/-- An enabled publisher holding 3 messages. -/
def kp3ex : KafkaPublisher :=
  ⟨cfgOn, [exDataMsg, exSensitiveMsg, exShutdownMsg]⟩

/-- An enabled publisher with an empty queue. -/
def kpEmptyOnEx : KafkaPublisher := ⟨cfgOn, []⟩

/-- A disabled publisher holding one message. -/
def kpOffEx : KafkaPublisher := ⟨cfgOff, [exDataMsg]⟩

/-! ## Helper lemmas -/

/-- The drain helper in closed form: it takes the first
`min 10 (length q)` messages and drops them from the queue. -/
lemma drain_vec_eq (q : List KafkaPublishMessage) :
    drain_messages_from_locked_work_vec q
      = (q.take (min 10 q.length), q.drop (min 10 q.length)) := by
  by_cases h : q.length > 10
  · have hmin : min 10 q.length = 10 := by omega
    simp [drain_messages_from_locked_work_vec, h, hmin]
  · have hmin : min 10 q.length = q.length := by omega
    simp [drain_messages_from_locked_work_vec, h, hmin]

/-! ## Claim theorems -/

/-- Claim C1: `add_messages_to_locked_work_vec` on an empty batch returns
the `EmptyBatch`-style error `"no msgs to add"` and leaves the queue
unchanged; on a non-empty batch (lock acquired) it appends all messages
in order and returns the new total length, old length plus the number
added. -/
theorem enqueue_appends_or_rejects_empty (q msgs : List KafkaPublishMessage) :
    (msgs = [] →
      add_messages_to_locked_work_vec q msgs = (q, .error "no msgs to add")) ∧
    (msgs ≠ [] →
      add_messages_to_locked_work_vec q msgs
        = (q ++ msgs, .ok (q.length + msgs.length))) := by
  constructor
  · rintro rfl
    simp [add_messages_to_locked_work_vec]
  · intro h
    have hl : msgs.length ≠ 0 := by simpa [List.length_eq_zero] using h
    simp [add_messages_to_locked_work_vec, hl]

/-- Witness for C1 at concrete inputs: enqueueing one message into the
empty queue yields the singleton queue and length 1; enqueueing nothing
leaves the singleton queue unchanged with the error. -/
theorem enqueue_appends_or_rejects_empty_witness :
    add_messages_to_locked_work_vec [] [exShutdownMsg]
      = ([exShutdownMsg], .ok 1) ∧
    add_messages_to_locked_work_vec [exShutdownMsg] []
      = ([exShutdownMsg], .error "no msgs to add") := by
  constructor
  · simpa using
      (enqueue_appends_or_rejects_empty [] [exShutdownMsg]).2 (by simp)
  · exact (enqueue_appends_or_rejects_empty [exShutdownMsg] []).1 rfl

/-- Claim C2: `drain_messages_from_locked_work_vec` removes exactly
`min 10 (length q)` messages from the front in original order, leaving
`length q - min 10 (length q)` behind; on a queue of 15 it returns the
first 10 and a second drain returns the remaining 5 in order, leaving
nothing. -/
theorem drain_takes_min_ten (q : List KafkaPublishMessage) :
    (drain_messages_from_locked_work_vec q).1 = q.take (min 10 q.length) ∧
    (drain_messages_from_locked_work_vec q).2 = q.drop (min 10 q.length) ∧
    (drain_messages_from_locked_work_vec q).2.length
      = q.length - min 10 q.length ∧
    (q.length = 15 →
      (drain_messages_from_locked_work_vec q).1 = q.take 10 ∧
      (drain_messages_from_locked_work_vec
        (drain_messages_from_locked_work_vec q).2).1 = q.drop 10 ∧
      (drain_messages_from_locked_work_vec
        (drain_messages_from_locked_work_vec q).2).2 = []) := by
  by_cases h : q.length > 10
  · have hmin : min 10 q.length = 10 := by omega
    refine ⟨?_, ?_, ?_, ?_⟩
    · simp [drain_messages_from_locked_work_vec, h, hmin]
    · simp [drain_messages_from_locked_work_vec, h, hmin]
    · simp [drain_messages_from_locked_work_vec, h, hmin]
    · intro h15
      have hlen2 : (q.drop 10).length = 5 := by
        simp [List.length_drop, h15]
      refine ⟨?_, ?_, ?_⟩
      · simp [drain_messages_from_locked_work_vec, h]
      · simp [drain_messages_from_locked_work_vec, h, hlen2]
      · simp [drain_messages_from_locked_work_vec, h, hlen2]
  · have hle : q.length ≤ 10 := by omega
    have hmin : min 10 q.length = q.length := by omega
    refine ⟨?_, ?_, ?_, ?_⟩
    · simp [drain_messages_from_locked_work_vec, h, hmin]
    · simp [drain_messages_from_locked_work_vec, h, hmin]
    · simp [drain_messages_from_locked_work_vec, h, hmin]
    · intro h15
      omega

/-- Witness for C2 at a concrete queue of 15 distinct messages. -/
theorem drain_takes_min_ten_witness :
    (drain_messages_from_locked_work_vec q15ex).1 = q15ex.take 10 ∧
    (drain_messages_from_locked_work_vec
      (drain_messages_from_locked_work_vec q15ex).2).1 = q15ex.drop 10 ∧
    (drain_messages_from_locked_work_vec
      (drain_messages_from_locked_work_vec q15ex).2).2 = [] :=
  (drain_takes_min_ten q15ex).2.2.2 (by decide)

/-- Claim C4 counterexample: on an enabled publisher whose queue holds 11
messages, `drain_msgs` does not leave the queue empty and does not return
all pending messages — it is capped at 10. -/
theorem drain_msgs_whole_queue_cex :
    (KafkaPublisher.drain_msgs kp11ex).1.publish_msgs ≠ [] ∧
    (KafkaPublisher.drain_msgs kp11ex).2 ≠ kp11ex.publish_msgs := by
  decide

/-- Claim C4 as amended: with the pool enabled, `drain_msgs` returns the
first `min 10 (queue length)` pending messages and leaves the rest; it
empties the queue exactly when at most 10 messages are pending. -/
theorem drain_msgs_caps_at_ten (kp : KafkaPublisher)
    (h : kp.config.is_enabled = true) :
    kp.drain_msgs.2 = kp.publish_msgs.take (min 10 kp.publish_msgs.length) ∧
    kp.drain_msgs.1.publish_msgs
      = kp.publish_msgs.drop (min 10 kp.publish_msgs.length) ∧
    (kp.publish_msgs.length ≤ 10 →
      kp.drain_msgs.2 = kp.publish_msgs ∧
      kp.drain_msgs.1.publish_msgs = []) := by
  have hd := drain_vec_eq kp.publish_msgs
  refine ⟨?_, ?_, ?_⟩
  · simp [KafkaPublisher.drain_msgs, h, hd]
  · simp [KafkaPublisher.drain_msgs, h, hd]
  · intro hle
    have hmin : min 10 kp.publish_msgs.length = kp.publish_msgs.length := by
      omega
    constructor
    · simp [KafkaPublisher.drain_msgs, h, hd, hmin]
    · simp [KafkaPublisher.drain_msgs, h, hd, hmin]

/-- Witness for the amended C4 at an enabled publisher with 3 pending
messages: everything is returned and the queue is left empty. -/
theorem drain_msgs_caps_at_ten_witness :
    kp3ex.drain_msgs.2 = kp3ex.publish_msgs ∧
    kp3ex.drain_msgs.1.publish_msgs = [] :=
  (drain_msgs_caps_at_ten kp3ex rfl).2.2 (by decide)

/-- Claim C6: with the pool enabled, `shutdown` appends exactly one
`Shutdown`-kind message to the queue and returns
`Ok("shutdown started")`; on an empty queue the queue length becomes 1
and the single queued message has kind `Shutdown`; with the pool
disabled it returns `Ok("kafka not enabled")` and leaves the publisher
untouched. -/
theorem shutdown_enqueues_one_poison_pill (kp : KafkaPublisher) :
    (kp.config.is_enabled = true →
      kp.shutdown.1.publish_msgs = kp.publish_msgs ++ [exShutdownMsg] ∧
      kp.shutdown.2 = .ok "shutdown started" ∧
      (kp.publish_msgs = [] →
        kp.shutdown.1.publish_msgs.length = 1 ∧
        ∀ m ∈ kp.shutdown.1.publish_msgs, m.msg_type = .Shutdown)) ∧
    (kp.config.is_enabled = false →
      kp.shutdown.1 = kp ∧ kp.shutdown.2 = .ok "kafka not enabled") := by
  constructor
  · intro h
    have hadd : add_messages_to_locked_work_vec kp.publish_msgs [exShutdownMsg]
        = (kp.publish_msgs ++ [exShutdownMsg],
            .ok (kp.publish_msgs ++ [exShutdownMsg]).length) := by
      simp [add_messages_to_locked_work_vec]
    refine ⟨?_, ?_, ?_⟩
    · simp [KafkaPublisher.shutdown, h, exShutdownMsg] at *
      simp [hadd]
    · simp [KafkaPublisher.shutdown, h, exShutdownMsg] at *
      simp [hadd]
    · intro hq
      constructor
      · simp [KafkaPublisher.shutdown, h, exShutdownMsg, hq,
              add_messages_to_locked_work_vec]
      · intro m hm
        simp [KafkaPublisher.shutdown, h, exShutdownMsg, hq,
              add_messages_to_locked_work_vec] at hm
        simp [hm, exShutdownMsg, build_kafka_publish_message]
  · intro h
    constructor
    · simp [KafkaPublisher.shutdown, h]
    · simp [KafkaPublisher.shutdown, h]

/-- Witness for C6: `shutdown` on the enabled empty-queue publisher
leaves one `Shutdown` message queued with result
`Ok("shutdown started")`, and on direct evaluation the queued message is
the poison pill. -/
theorem shutdown_enqueues_one_poison_pill_witness :
    kpEmptyOnEx.shutdown.1.publish_msgs = [exShutdownMsg] ∧
    kpEmptyOnEx.shutdown.2 = .ok "shutdown started" ∧
    kpEmptyOnEx.shutdown.1.publish_msgs.length = 1 ∧
    (∀ m ∈ kpEmptyOnEx.shutdown.1.publish_msgs, m.msg_type = .Shutdown) ∧
    kpOffEx.shutdown.1 = kpOffEx ∧
    kpOffEx.shutdown.2 = .ok "kafka not enabled" := by
  have h1 := (shutdown_enqueues_one_poison_pill kpEmptyOnEx).1 rfl
  have h2 := (shutdown_enqueues_one_poison_pill kpOffEx).2 rfl
  have h3 := h1.2.2 rfl
  exact ⟨by simpa using h1.1, h1.2.1, h3.1, h3.2, h2.1, h2.2⟩

/-- Claim C10: when `is_enabled` is false, `add_data_msg`, `add_msg` and
`add_msgs` each return `Ok(0)` leaving the publisher (and so the shared
queue) unchanged, and `drain_msgs` returns the empty sequence leaving the
queue unchanged. -/
theorem disabled_facade_is_noop (kp : KafkaPublisher) (topic key payload : String)
    (headers : Option (List (String × String))) (msg : KafkaPublishMessage)
    (msgs : List KafkaPublishMessage) (h : kp.config.is_enabled = false) :
    kp.add_data_msg topic key headers payload = (kp, .ok 0) ∧
    kp.add_msg msg = (kp, .ok 0) ∧
    kp.add_msgs msgs = (kp, .ok 0) ∧
    kp.drain_msgs = (kp, []) := by
  refine ⟨?_, ?_, ?_, ?_⟩
  · simp [KafkaPublisher.add_data_msg, h]
  · simp [KafkaPublisher.add_msg, h]
  · simp [KafkaPublisher.add_msgs, h]
  · simp [KafkaPublisher.drain_msgs, h]

/-- Witness for C10 at a disabled publisher holding one message. -/
theorem disabled_facade_is_noop_witness :
    kpOffEx.add_data_msg "testing" "k" none "payload" = (kpOffEx, .ok 0) ∧
    kpOffEx.add_msg exDataMsg = (kpOffEx, .ok 0) ∧
    kpOffEx.add_msgs [exDataMsg, exSensitiveMsg] = (kpOffEx, .ok 0) ∧
    kpOffEx.drain_msgs = (kpOffEx, []) :=
  disabled_facade_is_noop kpOffEx "testing" "k" "payload" none exDataMsg
    [exDataMsg, exSensitiveMsg] rfl

/-- A `Data` message whose payload is only 5 bytes. -/
def exShortDataMsg : KafkaPublishMessage :=
  ⟨.Data, "testing", "key-1", none, "short"⟩

/-- If `take_utf8_bytes` succeeds at byte count `n`, the list holds at
least `n` UTF-8 bytes. -/
lemma take_utf8_bytes_le (l : List Char) (n : Nat) (r : List Char)
    (h : take_utf8_bytes l n = some r) :
    n ≤ (l.map Char.utf8Size).sum := by
  induction l generalizing n r with
  | nil =>
    cases n with
    | zero => simp
    | succ k => simp [take_utf8_bytes] at h
  | cons c cs ih =>
    cases n with
    | zero => simp
    | succ k =>
      by_cases hc : c.utf8Size ≤ k + 1
      · simp only [take_utf8_bytes, if_pos hc] at h
        cases hm : take_utf8_bytes cs (k + 1 - c.utf8Size) with
        | none => simp [hm] at h
        | some l' =>
          have := ih _ _ hm
          simp only [List.map_cons, List.sum_cons]
          omega
      · simp [take_utf8_bytes, hc] at h

/-- The Rust slice `&s[..n]` is in bounds only when the string holds at
least `n` bytes. -/
lemma rustStrSliceTo_some_le (s : String) (n : Nat) (s' : String)
    (h : rustStrSliceTo s n = some s') : n ≤ utf8ByteLen s := by
  unfold rustStrSliceTo at h
  cases hm : take_utf8_bytes s.data n with
  | none => simp [hm] at h
  | some l => exact take_utf8_bytes_le _ _ _ hm

/-- On a payload shorter than `n` bytes the slice `&s[..n]` panics. -/
lemma rustStrSliceTo_short (s : String) (n : Nat)
    (h : utf8ByteLen s < n) : rustStrSliceTo s n = none := by
  cases hm : rustStrSliceTo s n with
  | none => rfl
  | some s' =>
    have := rustStrSliceTo_some_le s n s' hm
    omega

/-- Claim C5: when the front of the local batch is a `Shutdown` message,
the batch step sets the terminating flag, appends exactly one clone of
that message to the shared queue, and breaks — the remaining local
messages stay local and are not requeued; the after-batch transition then
terminates the worker, surrendering the leftover local messages. -/
theorem worker_shutdown_requeues_and_terminates (m : KafkaPublishMessage)
    (rest q : List KafkaPublishMessage) (ds : Int)
    (h : m.msg_type = .Shutdown) :
    batch_loop_step ds ⟨m :: rest, q, false, none⟩
      = (⟨rest, q ++ [m], true, none⟩, .breakBatch) ∧
    (q ++ [m]).length = q.length + 1 ∧
    after_batch_loop ⟨rest, q ++ [m], true, none⟩ = (.Terminated, rest) := by
  refine ⟨?_, by simp, by simp [after_batch_loop]⟩
  simp [batch_loop_step, dispatch_front_message, h,
        add_messages_to_locked_work_vec]

/-- Witness for C5: a batch holding the poison pill followed by a `Data`
message; the pill is requeued once, the `Data` message is dropped with
the worker's termination. -/
theorem worker_shutdown_requeues_and_terminates_witness :
    batch_loop_step 0 ⟨[exShutdownMsg, exDataMsg], [exSensitiveMsg], false, none⟩
      = (⟨[exDataMsg], [exSensitiveMsg, exShutdownMsg], true, none⟩,
         .breakBatch) ∧
    after_batch_loop ⟨[exDataMsg], [exSensitiveMsg, exShutdownMsg], true, none⟩
      = (.Terminated, [exDataMsg]) := by
  have h := worker_shutdown_requeues_and_terminates exShutdownMsg [exDataMsg]
    [exSensitiveMsg] 0 rfl
  exact ⟨h.1, h.2.2⟩

/-- Claim C9: the `Data` branch slices `&msg.payload[..10]` before
publishing; the slice is in bounds only when the payload holds at least
10 bytes, so on a `Data` message with a shorter payload the batch step
panics instead of publishing. -/
theorem worker_short_data_payload_panics (m : KafkaPublishMessage)
    (rest q : List KafkaPublishMessage) (ds : Int) (b : Bool)
    (h1 : m.msg_type = .Data) :
    (∀ s', rustStrSliceTo m.payload 10 = some s' →
      10 ≤ utf8ByteLen m.payload) ∧
    (utf8ByteLen m.payload < 10 → rustStrSliceTo m.payload 10 = none) ∧
    (rustStrSliceTo m.payload 10 = none →
      batch_loop_step ds ⟨m :: rest, q, b, none⟩
        = (⟨m :: rest, q, b, none⟩, .panicNow)) := by
  refine ⟨fun s' hs => rustStrSliceTo_some_le _ _ _ hs,
    rustStrSliceTo_short m.payload 10, ?_⟩
  intro hnone
  simp [batch_loop_step, dispatch_front_message, h1, hnone]

/-- Witness for C9 at a `Data` message with the 5-byte payload
`"short"`. -/
theorem worker_short_data_payload_panics_witness :
    rustStrSliceTo exShortDataMsg.payload 10 = none ∧
    batch_loop_step 0 ⟨[exShortDataMsg], [], false, none⟩
      = (⟨[exShortDataMsg], [], false, none⟩, .panicNow) := by
  have h := worker_short_data_payload_panics exShortDataMsg [] [] 0 false rfl
  have hnone := h.2.1 (by decide)
  exact ⟨hnone, h.2.2 hnone⟩

/-- Claim C3, evaluated at its failing input: a `Sensitive` message at
the front of the local batch is dispatched to the final `else` branch
("unsupported KafkaPublishMessageType"), which breaks without any
publish attempt, and the rest of the local batch is then silently
cleared — where the spec and the message-type enum's own documentation
say a `Sensitive` message is published like a `Data` message. -/
theorem sensitive_message_hits_unsupported_branch :
    dispatch_front_message exSensitiveMsg = .unsupportedBreak ∧
    batch_loop_step 0 ⟨[exSensitiveMsg, exDataMsg], [], false, none⟩
      = (⟨[exDataMsg], [], false, none⟩, .breakBatch) ∧
    after_batch_loop ⟨[exDataMsg], [], false, none⟩ = (.Draining, []) := by
  refine ⟨rfl, ?_, rfl⟩
  decide

/-- Claim C7: a `Sensitive` message's Debug and Display representations
are independent of its payload field (the payload is not rendered),
while a `Data` message's representations end in the payload — they
contain it. -/
theorem sensitive_repr_elides_payload (m : KafkaPublishMessage) (p' : String) :
    (m.msg_type = .Sensitive →
      KafkaPublishMessage.debugFmt { m with payload := p' } = m.debugFmt ∧
      KafkaPublishMessage.displayFmt { m with payload := p' }
        = m.displayFmt) ∧
    (m.msg_type = .Data →
      (∃ a, m.debugFmt = a ++ m.payload) ∧
      (∃ a, m.displayFmt = a ++ m.payload)) := by
  constructor
  · intro h
    constructor
    · simp [KafkaPublishMessage.debugFmt, h]
    · simp [KafkaPublishMessage.displayFmt, h]
  · intro h
    constructor
    · refine ⟨"DEBUG KafkaPublishMessage type=" ++ fmtMsgType m.msg_type
        ++ " topic=" ++ m.topic ++ " key=" ++ m.key
        ++ " headers=" ++ fmtHeaders m.headers ++ " payload=", ?_⟩
      simp [KafkaPublishMessage.debugFmt, h]
    · refine ⟨"KafkaPublishMessage type=" ++ fmtMsgType m.msg_type
        ++ " topic=" ++ m.topic ++ " key=" ++ m.key
        ++ " headers=" ++ fmtHeaders m.headers ++ " payload=", ?_⟩
      simp [KafkaPublishMessage.displayFmt, h]

/-- Witness for C7: the concrete `Sensitive` message's representations
do not change when its payload is replaced, and the concrete `Data`
message's representations contain its payload. -/
theorem sensitive_repr_elides_payload_witness :
    KafkaPublishMessage.debugFmt { exSensitiveMsg with payload := "other" }
      = exSensitiveMsg.debugFmt ∧
    KafkaPublishMessage.displayFmt { exSensitiveMsg with payload := "other" }
      = exSensitiveMsg.displayFmt ∧
    (∃ a, exDataMsg.debugFmt = a ++ exDataMsg.payload) ∧
    (∃ a, exDataMsg.displayFmt = a ++ exDataMsg.payload) := by
  have hs := (sensitive_repr_elides_payload exSensitiveMsg "other").1 rfl
  have hd := (sensitive_repr_elides_payload exDataMsg "other").2 rfl
  exact ⟨hs.1, hs.2, hd.1, hd.2⟩

/-- Topics used by the metadata counterexample and witness. -/
def topicT1ex : TopicMeta := ⟨"t1", [⟨0, some (0, 5)⟩]⟩

/-- Second topic, also with watermark difference 5. -/
def topicT2ex : TopicMeta := ⟨"t2", [⟨0, some (0, 5)⟩]⟩

/-- Single topic with one partition at watermarks `(0, 42)`. -/
def topicT42ex : TopicMeta := ⟨"t1", [⟨0, some (0, 42)⟩]⟩

/-- The value of `message_count` logged for the topic at position
`pre.length` is the running total over all earlier topics plus that
topic's own partition differences (`message_count` is never reset
between topics). -/
lemma report_counts_from_getElem (acc : Int) (pre : List TopicMeta)
    (t : TopicMeta) (post : List TopicMeta) :
    (report_counts_from acc (pre ++ t :: post))[pre.length]?
      = some (t.name, acc + ((pre.map topic_watermark_sum).sum
          + topic_watermark_sum t)) := by
  induction pre generalizing acc with
  | nil => simp [report_counts_from]
  | cons p pre ih =>
    simp only [List.cons_append, report_counts_from, List.length_cons,
      List.getElem?_cons_succ, List.append_eq, ih, List.map_cons,
      List.sum_cons]
    congr 2
    ring

/-- Claim C8 counterexample: with two topics each holding one partition
of watermark difference 5, the count reported for the second topic is
10, the cumulative total, not that topic's own sum 5 — the reported
counts differ from the per-topic sums the claim states. -/
theorem metadata_counts_not_per_topic_cex :
    get_kafka_metadata_counts true [topicT1ex, topicT2ex]
      = [("t1", 5), ("t2", 10)] ∧
    get_kafka_metadata_counts true [topicT1ex, topicT2ex]
      ≠ [topicT1ex, topicT2ex].map
          (fun t => (t.name, topic_watermark_sum t)) := by
  decide

/-- Claim C8 as amended: a failed watermark fetch defaults to
`(-1, -1)`; the message count reported for each topic is the running
total of `high - low` over that topic's partitions and those of all
previously visited topics; it equals the per-topic sum for the first
topic — in particular a single topic with one partition at watermarks
`(0, 42)` is reported with count 42. -/
theorem metadata_counts_are_running_totals (pre : List TopicMeta)
    (t : TopicMeta) (post : List TopicMeta) (p : PartitionMeta) :
    (p.watermarks = none → fetch_watermarks_or_default p = (-1, -1)) ∧
    (get_kafka_metadata_counts true (pre ++ t :: post))[pre.length]?
      = some (t.name, (pre.map topic_watermark_sum).sum
          + topic_watermark_sum t) ∧
    get_kafka_metadata_counts false (pre ++ t :: post) = [] ∧
    (pre = [] →
      (get_kafka_metadata_counts true (t :: post))[0]?
        = some (t.name, topic_watermark_sum t)) := by
  refine ⟨?_, ?_, ?_, ?_⟩
  · intro h
    simp [fetch_watermarks_or_default, h]
  · simpa [get_kafka_metadata_counts] using
      report_counts_from_getElem 0 pre t post
  · simp [get_kafka_metadata_counts]
  · intro h
    simpa [get_kafka_metadata_counts] using
      report_counts_from_getElem 0 [] t post

/-- Witness for the amended C8: a failed fetch defaults to `(-1, -1)`;
for the two-topic example the second topic is reported with the running
total 10; the single topic at watermarks `(0, 42)` is reported with
count 42. -/
theorem metadata_counts_are_running_totals_witness :
    fetch_watermarks_or_default ⟨0, none⟩ = (-1, -1) ∧
    (get_kafka_metadata_counts true [topicT1ex, topicT2ex])[1]?
      = some ("t2", 10) ∧
    (get_kafka_metadata_counts true [topicT42ex])[0]?
      = some ("t1", 42) := by
  have h1 :=
    (metadata_counts_are_running_totals [] topicT1ex [] ⟨0, none⟩).1 rfl
  have h2 :=
    (metadata_counts_are_running_totals [topicT1ex] topicT2ex []
      ⟨0, none⟩).2.1
  have h3 :=
    (metadata_counts_are_running_totals [] topicT42ex [] ⟨0, none⟩).2.2.2 rfl
  refine ⟨h1, ?_, ?_⟩
  · have : ((([topicT1ex].map topic_watermark_sum).sum
        + topic_watermark_sum topicT2ex) : Int) = 10 := by decide
    simpa [this, topicT2ex] using h2
  · have : topic_watermark_sum topicT42ex = 42 := by decide
    simpa [this, topicT42ex] using h3

end KafkaThreadpool
